import Mathlib

/-!
Verification of the mcp-cdd subsystem: the scenario responder
(state_street_cdd.py) and the next-step follower (example_client.py).

JSON-compatible Python values are modelled by the inductive type JVal.
Python dicts are insertion-ordered association lists, matching CPython
dict semantics: lookup finds the unique entry with the key, assignment of
an existing key keeps its position, assignment of a new key appends.

Python float arithmetic is modelled exactly: a binary64 value is the
rational it denotes, and each arithmetic operation rounds the exact
rational result to the nearest binary64 value (ties to even), which is
the IEEE-754 semantics CPython floats follow.
-/

/-- JSON-compatible Python value as produced and consumed by the CDD
 tools. Dicts are insertion-ordered association lists. -/
inductive JVal where
  | str (s : String)
  | int (n : Int)
  | bool (b : Bool)
  | list (xs : List JVal)
  | dict (entries : List (String × JVal))

/-- Python d.get(k): the entry with key k, if any. CPython dict keys are
 unique, so the first match is the only one. -/
def dget (d : List (String × JVal)) (k : String) : Option JVal :=
  (d.find? (fun kv => kv.1 == k)).map (fun kv => kv.2)

/-- Python d[k] = v: replace in place when the key exists, else append. -/
def dset : List (String × JVal) → String → JVal → List (String × JVal)
  | [], k, v => [(k, v)]
  | (k0, v0) :: rest, k, v =>
    if k0 == k then (k, v) :: rest else (k0, v0) :: dset rest k v

/-- Python d.update(u): apply each assignment of u in order. -/
def dupdate (d u : List (String × JVal)) : List (String × JVal) :=
  u.foldl (fun acc kv => dset acc kv.1 kv.2) d

/-- Python "k in d" for a dict d. -/
def hasKey (d : List (String × JVal)) (k : String) : Bool :=
  d.any (fun kv => kv.1 == k)

/-- Python v.get(k) on a JSON value; the source only applies .get to
 dict results, so non-dicts yield nothing. -/
def jget (v : JVal) (k : String) : Option JVal :=
  match v with
  | .dict d => dget d k
  | _ => none

/-- Python v[k] = x on a JSON value known to be a dict. -/
def jset (v : JVal) (k : String) (x : JVal) : JVal :=
  match v with
  | .dict d => .dict (dset d k x)
  | _ => v

/-- The values of a JSON dict in insertion order (Python d.values()). -/
def jvalues (v : JVal) : List JVal :=
  match v with
  | .dict d => d.map (fun kv => kv.2)
  | _ => []

/-- Python sum over a list of values; every value summed in this code
 base is an int literal, so non-ints never occur and count as 0. -/
def pySumInt (xs : List JVal) : Int :=
  xs.foldl (fun a v => a + (match v with | .int n => n | _ => 0)) 0

/-- Python truthiness of a JSON value. -/
def pyTruthy : JVal → Bool
  | .str s => !(s == "")
  | .int n => !(n == 0)
  | .bool b => b
  | .list xs => !xs.isEmpty
  | .dict d => !d.isEmpty

/-! ### String scenario classification -/

/-- ASCII lowercasing of one character: the fragment of Python
 str.lower relevant to the customer identifiers in this code base. -/
def pyLowerChar (c : Char) : Char :=
  if 'A' ≤ c ∧ c ≤ 'Z' then Char.ofNat (c.toNat + 32) else c

/-- The character list of customer_id.lower(). -/
def lowerData (s : String) : List Char := s.data.map pyLowerChar

/-- Whether the needle starts the haystack (character-wise). -/
def leadsWith : List Char → List Char → Bool
  | [], _ => true
  | _ :: _, [] => false
  | a :: as, b :: bs => a == b && leadsWith as bs

/-- Python "sub in s": the needle occurs contiguously in the haystack. -/
def containsSeq (needle : List Char) : List Char → Bool
  | [] => leadsWith needle []
  | c :: cs => leadsWith needle (c :: cs) || containsSeq needle cs

/-- Case-insensitive containment, Python "sub in customer_id.lower()"
 for an ASCII-lowercase needle. -/
def containsCI (cid : String) (sub : String) : Bool :=
  containsSeq sub.data (lowerData cid)

/-- Transcription of _infer_scenario_for_customer
 (state_street_cdd.py lines 11-26). -/
def _infer_scenario_for_customer (customer_id : String) : String :=
  if customer_id = "" then "positive"
  else if containsCI customer_id "neg" || containsCI customer_id "negative" then
    "negative"
  else if containsCI customer_id "pos" || containsCI customer_id "positive" then
    "positive"
  else "positive"

/-! ### Exact model of the two float computations of get_risk_score

The source computes int(sum * 2.0) and max(0, int(sum * 0.3)) where sum
is the Python int 72. CPython converts the int to binary64 (exact for
magnitudes below 2^53), multiplies in binary64 (the exact rational
product rounded to the nearest binary64 value, ties to even) and int()
truncates toward zero. -/

/-- Python int() on a float value: truncation toward zero. -/
def pyInt (q : ℚ) : Int := if 0 ≤ q then ⌊q⌋ else ⌈q⌉

/-- Largest exponent e ≤ fuel with 2 ^ e ≤ q, by downward search
 (0 when q < 2). -/
def expFuel : ℕ → ℚ → ℕ
  | 0, _ => 0
  | f + 1, q => if (2 : ℚ) ^ (f + 1) ≤ q then f + 1 else expFuel f q

/-- Floor of the base-2 logarithm for rationals in [1, 2^65); every
 float produced in this code base lies in [1, 145]. -/
def floorLog2 (q : ℚ) : ℕ := expFuel 64 q

/-- Round a rational to the nearest integer, ties to even. -/
def rne (q : ℚ) : Int :=
  if q - ⌊q⌋ < 1 / 2 then ⌊q⌋
  else if 1 / 2 < q - ⌊q⌋ then ⌊q⌋ + 1
  else if ⌊q⌋ % 2 = 0 then ⌊q⌋ else ⌊q⌋ + 1

/-- Round a positive rational in [1, 2^64) to the nearest IEEE-754
 binary64 value: 53-bit significand, round to nearest, ties to even.
 This is the rounding a binary64 multiplication applies to the exact
 product of its operands when that product lies in this range. -/
def roundB64 (q : ℚ) : ℚ :=
  ((rne (q * 2 ^ 52 / 2 ^ floorLog2 q) : ℚ)) * 2 ^ floorLog2 q / 2 ^ 52

/-- The binary64 value denoted by the Python literal 0.3, namely
 0x1.3333333333333 * 2 ^ (-2); see lit_0_3_closest below. -/
def lit_0_3 : ℚ := 5404319552844595 / 2 ^ 54

/-- The binary64 value of the Python literal 2.0 (exact). -/
def lit_2_0 : ℚ := 2

/-- Sanity check: lit_0_3 is a binary64 value of the binade [1/4, 1/2)
 (a multiple of 2 ^ (-54)) and lies within half an ulp of 3/10, so it is
 the value binary64 rounding assigns to the literal 0.3. It is strictly
 below 3/10. -/
theorem lit_0_3_closest :
    lit_0_3 * 2 ^ 54 = (5404319552844595 : ℚ) ∧
    (1 / 4 : ℚ) ≤ lit_0_3 ∧ lit_0_3 < 1 / 2 ∧
    |3 / 10 - lit_0_3| < 1 / 2 ^ 55 ∧ lit_0_3 < 3 / 10 := by
  refine ⟨by norm_num [lit_0_3], by norm_num [lit_0_3], by norm_num [lit_0_3], ?_, by norm_num [lit_0_3]⟩
  rw [abs_sub_lt_iff]
  constructor <;> norm_num [lit_0_3]

/-! ### The scenario responder (state_street_cdd.py) -/

/-- Transcription of get_customer_profile (lines 30-73). -/
def get_customer_profile (customer_id : String) : JVal :=
  let base : List (String × JVal) := [
    ("customer_id", .str customer_id),
    ("name", .str "ACME Corp"),
    ("country", .str "US"),
    ("incorporation_date", .str "2010-07-16"),
    ("industry", .str "Financial Services"),
    ("contacts", .list [.dict [
      ("name", .str "Jane Doe"),
      ("role", .str "Compliance Officer"),
      ("email", .str "jane.doe@example.com")]])]
  let scenario := _infer_scenario_for_customer customer_id
  let base1 :=
    if scenario = "negative" then
      dupdate base [
        ("status", .str "under_review"),
        ("risk_profile", .str "high"),
        ("notes", .str "Potential sanctions exposure and anomalous transactions detected")]
    else
      dupdate base [
        ("status", .str "active"),
        ("risk_profile", .str "low"),
        ("notes", .str "Customer in good standing")]
  let base2 :=
    if scenario = "negative" then
      dset base1 "next_steps" (.list [
        .str "Collect additional KYC",
        .str "Enhanced monitoring",
        .str "Escalate to AML officer",
        .dict [("tool", .str "get_risk_score"),
               ("params", .dict [("customer_id", .str customer_id)])],
        .dict [("tool", .str "generate_compliance_report"),
               ("params", .dict [("customer_id", .str customer_id)])]])
    else
      dset base1 "next_steps" (.list [
        .str "Standard monitoring",
        .str "Periodic review in 12 months",
        .dict [("tool", .str "get_risk_score"),
               ("params", .dict [("customer_id", .str customer_id)])],
        .dict [("tool", .str "generate_compliance_report"),
               ("params", .dict [("customer_id", .str customer_id)])]])
  .dict base2

/-- Transcription of get_risk_score (lines 77-123). The score arithmetic
 follows the source exactly: sum(baseline["factors"].values()) is the
 int 72, multiplied as binary64 by the literal 2.0 or 0.3 and truncated
 by int(). -/
def get_risk_score (customer_id : String) : JVal :=
  let baseline : List (String × JVal) := [
    ("customer_id", .str customer_id),
    ("scale", .str "0-100"),
    ("factors", .dict [
      ("sanctions", .int 5),
      ("geo_risk", .int 12),
      ("industry_risk", .int 20),
      ("transaction_pattern", .int 35)])]
  let scenario := _infer_scenario_for_customer customer_id
  if scenario = "negative" then
    let score : Int :=
      pyInt (roundB64 ((pySumInt (jvalues ((dget baseline "factors").getD (.dict []))) : ℚ) * lit_2_0))
    .dict (dupdate baseline [
      ("score", .int (min 100 score)),
      ("interpretation", .str "High risk"),
      ("recommendation", .list [
        .str "Immediate enhanced due diligence",
        .str "Transaction restrictions until cleared"]),
      ("next_steps", .list [
        .str "Freeze suspicious accounts",
        .str "Collect source-of-funds evidence",
        .str "Notify AML team",
        .dict [("tool", .str "explain_risk"),
               ("params", .dict [("customer_id", .str customer_id)])],
        .dict [("tool", .str "generate_compliance_report"),
               ("params", .dict [("customer_id", .str customer_id)])]])])
  else
    let score : Int :=
      max 0 (pyInt (roundB64 ((pySumInt (jvalues ((dget baseline "factors").getD (.dict []))) : ℚ) * lit_0_3)))
    .dict (dupdate baseline [
      ("score", .int score),
      ("interpretation", .str (if score < 30 then "Low risk" else "Moderate risk")),
      ("recommendation", .list (if score < 30 then [.str "Standard monitoring"] else [.str "Enhanced monitoring"])),
      ("next_steps", .list [
        .str (if score < 30 then "Routine checks" else "Request a brief KYC update"),
        .dict [("tool", .str "explain_risk"),
               ("params", .dict [("customer_id", .str customer_id)])],
        .dict [("tool", .str "generate_compliance_report"),
               ("params", .dict [("customer_id", .str customer_id)])]])])

/-- Transcription of explain_risk (lines 127-162). -/
def explain_risk (customer_id : String) : JVal :=
  if _infer_scenario_for_customer customer_id = "negative" then
    .dict [
      ("customer_id", .str customer_id),
      ("explanation", .str "High risk indicators: suspicious transaction patterns, exposure to higher-risk geographies, and possible name matches in screening results."),
      ("recommendation", .list [
        .str "Immediate enhanced due diligence",
        .str "Temporary transaction restrictions",
        .str "Collect and verify source-of-funds and beneficial ownership documentation"]),
      ("next_steps", .list [
        .str "Escalate to AML officer",
        .str "Open investigation ticket",
        .str "Contact counterparty banks if required",
        .dict [("tool", .str "generate_compliance_report"),
               ("params", .dict [("customer_id", .str customer_id)])]])]
  else
    .dict [
      ("customer_id", .str customer_id),
      ("explanation", .str "Low risk profile: strong KYC, low geolocation exposure, and normal transaction patterns."),
      ("recommendation", .list [.str "Standard monitoring", .str "Annual re-check"]),
      ("next_steps", .list [
        .str "Continue normal monitoring",
        .str "Re-run scoring yearly",
        .dict [("tool", .str "generate_compliance_report"),
               ("params", .dict [("customer_id", .str customer_id)])]])]

/-- Transcription of generate_compliance_report (lines 166-203). -/
def generate_compliance_report (customer_id : String) : JVal :=
  let report : List (String × JVal) := [
    ("customer_id", .str customer_id),
    ("report_id", .str ("RPT-" ++ customer_id ++ "-001")),
    ("generated_at", .str "2025-11-29T12:00:00Z")]
  let scenario := _infer_scenario_for_customer customer_id
  if scenario = "negative" then
    .dict (dset (dset report "summary" (.dict [
        ("kyc_verified", .bool false),
        ("aml_checks_passed", .bool false),
        ("open_issues", .list [
          .dict [("id", .str "ISS-01"),
                 ("description", .str "Multiple high-value transfers to flagged jurisdictions")],
          .dict [("id", .str "ISS-02"),
                 ("description", .str "Possible mismatch in beneficial owner documentation")]])]))
      "next_steps" (.list [
        .str "Freeze account pending investigation",
        .str "Collect source-of-funds evidence",
        .str "Escalate to AML officer and file internal incident"]))
  else
    .dict (dset (dset report "summary" (.dict [
        ("kyc_verified", .bool true),
        ("aml_checks_passed", .bool true),
        ("open_issues", .list [])]))
      "next_steps" (.list [
        .str "Archive check results",
        .str "Re-evaluate in 12 months"]))

/-! ### The next-step follower (example_client.py)

The follower is parameterized by the client tool registry. A registered
tool takes the keyword parameters of the call and either returns a
result document or fails with an error message (a raised exception).
Cyclic response graphs are expressible through the registry: a tool may
return a document whose next_steps point back to any tool. -/

/-- A registered tool: keyword parameters to result or raised error. -/
def ToolFun : Type := List (String × JVal) → Except String JVal

/-- The client tool registry, tool name to callable. -/
def ToolEnv : Type := List (String × ToolFun)

/-- tool_map.get(tool_name): only strings are registry keys, so a
 non-string name never resolves. -/
def envGet (env : ToolEnv) (name : JVal) : Option ToolFun :=
  match name with
  | .str s => (env.find? (fun kv => kv.1 == s)).map (fun kv => kv.2)
  | _ => none

/-- One line of follower output, in print order: the depth-guard
 message, a human action, an unknown tool report, the pre-call message
 with the parameters passed to the tool, a tool result, or a caught
 invocation error with the tool name and error detail. -/
inductive Event where
  | maxDepth (depth : ℕ)
  | humanAction (step : JVal)
  | unknownTool (name : JVal)
  | calling (name : JVal) (params : List (String × JVal)) (depth : ℕ)
  | toolResult (name : JVal) (result : JVal)
  | toolError (name : JVal) (err : String)

/-- Line 90: steps = result.get("next_steps") or []. A truthy non-list
 value would make the source for-loop raise a type error; such inputs
 never occur here and are collapsed to the empty list. -/
def getSteps (result : JVal) : List JVal :=
  match jget result "next_steps" with
  | some (.list xs) => xs
  | _ => []

/-- Lines 106-107: when params lacks a customer_id key and the parent
 result has one, assign it into params. Assignment of a new key appends
 it in CPython dict order. -/
def inject (result : JVal) (params : List (String × JVal)) : List (String × JVal) :=
  if hasKey params "customer_id" then params
  else
    match jget result "customer_id" with
    | some v => params ++ [("customer_id", v)]
    | none => params

/-- Line 104: params = step.get("params", default empty dict). Some means the step
 stores its own params dict, so the in-place injection of lines 106-107
 writes through to the step; none means a fresh empty dict was created
 and writes to it stay invisible. A present non-dict params value would
 raise in the source and never occurs here. -/
def storedParams (kvs : List (String × JVal)) : Option (List (String × JVal)) :=
  match dget kvs "params" with
  | some (.dict p) => some p
  | _ => none

/-- The body of the follower loop (lines 101-125) for one next_steps
 entry. recur is the recursive follow call at depth + 1. Returns the
 events printed for this entry, in order, and the entry as the loop
 leaves it inside the parent result (identical to the input entry except
 that a stored params dict reflects the in-place customer_id
 injection). -/
def processStep (env : ToolEnv) (depth : ℕ) (result : JVal)
    (recur : JVal → List Event × JVal) (step : JVal) : List Event × JVal :=
  match step with
  | .dict kvs =>
    match dget kvs "tool" with
    | some t =>
      if pyTruthy t then
        let p1 := inject result ((storedParams kvs).getD [])
        let step1 : JVal :=
          if (storedParams kvs).isSome then .dict (dset kvs "params" (.dict p1))
          else .dict kvs
        match envGet env t with
        | none => ([.unknownTool t], step1)
        | some f =>
          match f p1 with
          | .ok resp =>
            (.calling t p1 (depth + 1) :: .toolResult t resp :: (recur resp).1, step1)
          | .error e => ([.calling t p1 (depth + 1), .toolError t e], step1)
      else ([.humanAction step], step)
    | none => ([.humanAction step], step)
  | _ => ([.humanAction step], step)

/-- Fuel-indexed core of follow_next_steps. The fuel is
 max_depth - depth, so fuel 0 is exactly the depth guard firing. The
 second component is the result document as the call leaves it: the
 only caller-visible writes are the in-place params injections into its
 own next_steps entries, since every recursive call operates on a fresh
 document returned by a tool. -/
def followF (env : ToolEnv) (maxd : ℕ) : ℕ → ℕ → JVal → List Event × JVal
  | 0, depth, result => ([.maxDepth depth], result)
  | fuel + 1, depth, result =>
    let steps := getSteps result
    if steps.isEmpty then ([], result)
    else
      let rs := steps.map
        (processStep env depth result (fun resp => followF env maxd fuel (depth + 1) resp))
      ((rs.map Prod.fst).flatten, jset result "next_steps" (.list (rs.map Prod.snd)))

/-- Transcription of follow_next_steps (example_client.py lines
 77-125), parameterized by the tool registry. First component: the
 reported events in print order. Second component: the input result as
 left after the call. -/
def follow_next_steps (env : ToolEnv) (result : JVal) (max_depth : ℕ) (d : ℕ) :
    List Event × JVal :=
  if max_depth ≤ d then ([.maxDepth d], result)
  else followF env max_depth (max_depth - d) d result

/-- CPython keyword binding for the four one-parameter tools: the call
 succeeds exactly on a single argument named customer_id; the tools then
 apply string operations to it, so a non-string value raises and is
 modelled as an error result. -/
def asTool (f : String → JVal) : ToolFun := fun params =>
  match params with
  | [(k, JVal.str cid)] =>
    if k == "customer_id" then .ok (f cid)
    else .error "TypeError: unexpected keyword argument"
  | _ => .error "TypeError: invalid arguments"

/-- The client tool registry (example_client.py lines 94-99). -/
def tool_map : ToolEnv := [
  ("get_customer_profile", asTool get_customer_profile),
  ("get_risk_score", asTool get_risk_score),
  ("explain_risk", asTool explain_risk),
  ("generate_compliance_report", asTool generate_compliance_report)]

/-! ### Unfolding lemmas for the follower -/

theorem follow_eq_followF (env : ToolEnv) (r : JVal) (maxd d : ℕ) :
    follow_next_steps env r maxd d = followF env maxd (maxd - d) d r := by
  unfold follow_next_steps
  by_cases h : maxd ≤ d
  · rw [if_pos h, Nat.sub_eq_zero_of_le h]
    rfl
  · rw [if_neg h]

theorem followF_eq_follow (env : ToolEnv) (resp : JVal) (maxd fuel d : ℕ)
    (hf : maxd - d = fuel) :
    followF env maxd fuel d resp = follow_next_steps env resp maxd d := by
  rw [follow_eq_followF, hf]

theorem follow_unfold (env : ToolEnv) (r : JVal) (maxd d : ℕ) (h : d < maxd) :
    follow_next_steps env r maxd d =
      (if (getSteps r).isEmpty then ([], r)
       else
         let rs := (getSteps r).map
           (processStep env d r (fun resp => follow_next_steps env resp maxd (d + 1)))
         ((rs.map Prod.fst).flatten, jset r "next_steps" (.list (rs.map Prod.snd)))) := by
  rw [follow_eq_followF]
  obtain ⟨fuel, hf⟩ : ∃ fuel, maxd - d = fuel + 1 :=
    ⟨maxd - d - 1, by omega⟩
  rw [hf]
  show followF env maxd (fuel + 1) d r = _
  unfold followF
  have hrec : (fun resp => followF env maxd fuel (d + 1) resp) =
      (fun resp => follow_next_steps env resp maxd (d + 1)) := by
    funext resp
    exact followF_eq_follow env resp maxd fuel (d + 1) (by omega)
  rw [hrec]

/-! ### C2: scenario classification -/

theorem leadsWith_drop (a b l : List Char) :
    leadsWith (a ++ b) l = true → leadsWith a l = true := by
  induction a generalizing l with
  | nil => intro _; rfl
  | cons c cs ih =>
    intro h
    cases l with
    | nil => exact absurd h (by simp [leadsWith])
    | cons x xs =>
      simp only [List.cons_append, leadsWith, Bool.and_eq_true] at h ⊢
      exact ⟨h.1, ih xs h.2⟩

theorem containsSeq_mono (a b l : List Char) :
    containsSeq (a ++ b) l = true → containsSeq a l = true := by
  induction l with
  | nil => exact fun h => leadsWith_drop a b [] h
  | cons c cs ih =>
    intro h
    simp only [containsSeq, Bool.or_eq_true] at h ⊢
    rcases h with h | h
    · exact Or.inl (leadsWith_drop a b (c :: cs) h)
    · exact Or.inr (ih h)

theorem negative_imp_neg (cid : String) :
    containsCI cid "negative" = true → containsCI cid "neg" = true := by
  intro h
  have hsplit : ("negative".data) = ("neg".data ++ "ative".data) := by decide
  unfold containsCI at h ⊢
  rw [hsplit] at h
  exact containsSeq_mono _ _ _ h

theorem positive_imp_pos (cid : String) :
    containsCI cid "positive" = true → containsCI cid "pos" = true := by
  intro h
  have hsplit : ("positive".data) = ("pos".data ++ "itive".data) := by decide
  unfold containsCI at h ⊢
  rw [hsplit] at h
  exact containsSeq_mono _ _ _ h

/-- C2: the scenario classification is a total deterministic function of
 the customer identifier: every identifier containing "neg" (any case)
 classifies as negative; every identifier containing "pos" (any case)
 and not "neg" classifies as positive; every other identifier,
 including the empty string, classifies as positive. Containment in any
 case is containment of the lowercase needle in the lowercased
 identifier. -/
theorem infer_scenario_total_classification (cid : String) :
    (containsCI cid "neg" = true → _infer_scenario_for_customer cid = "negative") ∧
    (containsCI cid "pos" = true → containsCI cid "neg" = false →
      _infer_scenario_for_customer cid = "positive") ∧
    (containsCI cid "neg" = false → containsCI cid "pos" = false →
      _infer_scenario_for_customer cid = "positive") := by
  have hneg2 : containsCI cid "neg" = false → containsCI cid "negative" = false := by
    intro hn
    cases hc : containsCI cid "negative" with
    | false => rfl
    | true => rw [negative_imp_neg cid hc] at hn; exact absurd hn (by simp)
  refine ⟨?_, ?_, ?_⟩
  · intro h
    by_cases he : cid = ""
    · subst he; exact absurd h (by decide)
    · simp [_infer_scenario_for_customer, he, h]
  · intro hp hn
    by_cases he : cid = ""
    · subst he; simp [_infer_scenario_for_customer]
    · simp [_infer_scenario_for_customer, he, hp, hn, hneg2 hn]
  · intro hn hp
    by_cases he : cid = ""
    · subst he; simp [_infer_scenario_for_customer]
    · have hpos2 : containsCI cid "positive" = false := by
        cases hc : containsCI cid "positive" with
        | false => rfl
        | true => rw [positive_imp_pos cid hc] at hp; exact absurd hp (by simp)
      simp [_infer_scenario_for_customer, he, hp, hn, hneg2 hn, hpos2]

/-- Witness for C2 at concrete identifiers of each class. -/
theorem infer_scenario_total_classification_witness :
    _infer_scenario_for_customer "X-nEg" = "negative" ∧
    _infer_scenario_for_customer "Cust-POS-1" = "positive" ∧
    _infer_scenario_for_customer "CUST-12345" = "positive" :=
  ⟨(infer_scenario_total_classification "X-nEg").1 (by decide),
   (infer_scenario_total_classification "Cust-POS-1").2.1 (by decide) (by decide),
   (infer_scenario_total_classification "CUST-12345").2.2 (by decide) (by decide)⟩

/-! ### C1: risk score values per scenario

The source computes the positive score as max(0, int(72 * 0.3)). The
binary64 value of 0.3 is strictly below 3/10, so the product is
strictly below 21.6; it rounds to 6079859496950169 * 2 ^ (-48), about
21.5999999999999996, and int() truncates it to 21, not 22. -/

theorem scorePos_eval : max 0 (pyInt (roundB64 (((72 : Int) : ℚ) * lit_0_3))) = 21 := by
  norm_num [roundB64, floorLog2, expFuel, lit_0_3, rne, pyInt]

theorem scoreNeg_eval : min 100 (pyInt (roundB64 (((72 : Int) : ℚ) * lit_2_0))) = 100 := by
  norm_num [roundB64, floorLog2, expFuel, lit_2_0, rne, pyInt]

theorem factors_sum_eval (cid : String) :
    pySumInt (jvalues ((dget [
      ("customer_id", JVal.str cid),
      ("scale", JVal.str "0-100"),
      ("factors", JVal.dict [
        ("sanctions", .int 5),
        ("geo_risk", .int 12),
        ("industry_risk", .int 20),
        ("transaction_pattern", .int 35)])] "factors").getD (.dict []))) = 72 := rfl

/-- Counterexample to C1 as stated: for the positive identifier "X-POS"
 the score field is 21, not 22, because int(72 * 0.3) truncates the
 binary64 product, which is strictly below 21.6. -/
theorem get_risk_score_pos_claim_cex :
    jget (get_risk_score "X-POS") "score" = some (.int 21) ∧
    ¬ jget (get_risk_score "X-POS") "score" = some (.int 22) := by
  have h : _infer_scenario_for_customer "X-POS" = "positive" := by decide
  have hv : jget (get_risk_score "X-POS") "score" = some (.int 21) := by
    unfold get_risk_score
    rw [h]
    simp only [reduceIte, factors_sum_eval, scorePos_eval]
    rfl
  refine ⟨hv, ?_⟩
  rw [hv]
  simp

/-- C1 as amended: for every identifier classified negative,
 get_risk_score reports score 100 and interpretation "High risk"; for
 every identifier classified positive, it reports score 21 (not 22: the
 source truncates the binary64 product 72 * 0.3, which lies strictly
 below 21.6) and interpretation "Low risk" (21 < 30). -/
theorem get_risk_score_scenario_values (cid : String) :
    (_infer_scenario_for_customer cid = "negative" →
      jget (get_risk_score cid) "score" = some (.int 100) ∧
      jget (get_risk_score cid) "interpretation" = some (.str "High risk")) ∧
    (_infer_scenario_for_customer cid = "positive" →
      jget (get_risk_score cid) "score" = some (.int 21) ∧
      jget (get_risk_score cid) "interpretation" = some (.str "Low risk")) := by
  constructor
  · intro h
    unfold get_risk_score
    rw [h]
    simp only [reduceIte, factors_sum_eval, scoreNeg_eval]
    constructor <;> rfl
  · intro h
    unfold get_risk_score
    rw [h]
    simp only [reduceIte, factors_sum_eval, scorePos_eval]
    constructor <;> rfl

/-- Witness for the amended C1 at the identifiers of the spec. -/
theorem get_risk_score_scenario_values_witness :
    (jget (get_risk_score "X-NEG") "score" = some (.int 100) ∧
      jget (get_risk_score "X-NEG") "interpretation" = some (.str "High risk")) ∧
    (jget (get_risk_score "X-POS") "score" = some (.int 21) ∧
      jget (get_risk_score "X-POS") "interpretation" = some (.str "Low risk")) :=
  ⟨(get_risk_score_scenario_values "X-NEG").1 (by decide),
   (get_risk_score_scenario_values "X-POS").2 (by decide)⟩

/-! ### C9: responder result invariant -/

theorem infer_scenario_cases (cid : String) :
    _infer_scenario_for_customer cid = "negative" ∨
    _infer_scenario_for_customer cid = "positive" := by
  unfold _infer_scenario_for_customer
  by_cases h1 : cid = ""
  · rw [if_pos h1]; exact Or.inr rfl
  rw [if_neg h1]
  by_cases h2 : (containsCI cid "neg" || containsCI cid "negative") = true
  · rw [if_pos h2]; exact Or.inl rfl
  rw [if_neg h2]
  by_cases h3 : (containsCI cid "pos" || containsCI cid "positive") = true
  · rw [if_pos h3]; exact Or.inr rfl
  · rw [if_neg h3]; exact Or.inr rfl

/-- C9: for every customer identifier, each of the four responder
 operations returns a dict that carries a customer_id key equal to the
 input identifier and a next_steps key holding a non-empty list. -/
theorem responder_results_invariant (cid : String) :
    (jget (get_customer_profile cid) "customer_id" = some (.str cid) ∧
      ∃ xs, jget (get_customer_profile cid) "next_steps" = some (.list xs) ∧ xs ≠ []) ∧
    (jget (get_risk_score cid) "customer_id" = some (.str cid) ∧
      ∃ xs, jget (get_risk_score cid) "next_steps" = some (.list xs) ∧ xs ≠ []) ∧
    (jget (explain_risk cid) "customer_id" = some (.str cid) ∧
      ∃ xs, jget (explain_risk cid) "next_steps" = some (.list xs) ∧ xs ≠ []) ∧
    (jget (generate_compliance_report cid) "customer_id" = some (.str cid) ∧
      ∃ xs, jget (generate_compliance_report cid) "next_steps" = some (.list xs) ∧ xs ≠ []) := by
  unfold get_customer_profile get_risk_score explain_risk generate_compliance_report
  rcases infer_scenario_cases cid with h | h <;>
    rw [h] <;>
    simp only [reduceIte] <;>
    exact ⟨⟨rfl, ⟨_, rfl, by simp⟩⟩, ⟨rfl, ⟨_, rfl, by simp⟩⟩,
      ⟨rfl, ⟨_, rfl, by simp⟩⟩, ⟨rfl, ⟨_, rfl, by simp⟩⟩⟩

/-! ### Evaluation lemmas for one follower loop iteration -/

theorem processStep_human_str (env : ToolEnv) (depth : ℕ) (result : JVal)
    (recur : JVal → List Event × JVal) (s : String) :
    processStep env depth result recur (.str s) = ([.humanAction (.str s)], .str s) := rfl

theorem processStep_eval_ok (env : ToolEnv) (depth : ℕ) (result : JVal)
    (recur : JVal → List Event × JVal) (kvs p : List (String × JVal)) (t : JVal)
    (f : ToolFun) (resp : JVal)
    (ht : dget kvs "tool" = some t) (htr : pyTruthy t = true)
    (hp : dget kvs "params" = some (.dict p)) (hf : envGet env t = some f)
    (hcall : f (inject result p) = .ok resp) :
    processStep env depth result recur (.dict kvs) =
      (.calling t (inject result p) (depth + 1) :: .toolResult t resp :: (recur resp).1,
       .dict (dset kvs "params" (.dict (inject result p)))) := by
  simp only [processStep, ht, htr, storedParams, hp, hf, hcall, reduceIte,
    Option.getD_some, Option.isSome_some]

theorem processStep_eval_err (env : ToolEnv) (depth : ℕ) (result : JVal)
    (recur : JVal → List Event × JVal) (kvs p : List (String × JVal)) (t : JVal)
    (f : ToolFun) (e : String)
    (ht : dget kvs "tool" = some t) (htr : pyTruthy t = true)
    (hp : dget kvs "params" = some (.dict p)) (hf : envGet env t = some f)
    (hcall : f (inject result p) = .error e) :
    processStep env depth result recur (.dict kvs) =
      ([.calling t (inject result p) (depth + 1), .toolError t e],
       .dict (dset kvs "params" (.dict (inject result p)))) := by
  simp only [processStep, ht, htr, storedParams, hp, hf, hcall, reduceIte,
    Option.getD_some, Option.isSome_some]

theorem processStep_eval_unknown (env : ToolEnv) (depth : ℕ) (result : JVal)
    (recur : JVal → List Event × JVal) (kvs : List (String × JVal)) (t : JVal)
    (ht : dget kvs "tool" = some t) (htr : pyTruthy t = true)
    (hu : envGet env t = none) :
    (processStep env depth result recur (.dict kvs)).1 = [.unknownTool t] := by
  simp only [processStep, ht, htr, hu, reduceIte]

/-! ### C10: a mapping entry without a truthy tool key is a human action -/

/-- C10: a next_steps entry that is a mapping whose tool key is absent,
 or maps to a falsy value such as the empty string, is reported as a
 human action: no registry lookup, no tool call, no recursion, and the
 entry is left unchanged. -/
theorem falsy_tool_step_is_human_action (env : ToolEnv) (depth : ℕ) (result : JVal)
    (recur : JVal → List Event × JVal) (kvs : List (String × JVal)) :
    (dget kvs "tool" = none →
      processStep env depth result recur (.dict kvs) =
        ([.humanAction (.dict kvs)], .dict kvs)) ∧
    (∀ t, dget kvs "tool" = some t → pyTruthy t = false →
      processStep env depth result recur (.dict kvs) =
        ([.humanAction (.dict kvs)], .dict kvs)) := by
  constructor
  · intro h
    simp only [processStep, h]
  · intro t ht hf
    simp only [processStep, ht, hf, Bool.false_eq_true, reduceIte]

/-- Witness for C10: an entry with an empty tool name and an entry with
 no tool key are both reported as human actions. -/
theorem falsy_tool_step_is_human_action_witness :
    processStep tool_map 0 (.dict []) (fun r => ([], r))
        (.dict [("tool", .str ""), ("params", .dict [])]) =
      ([.humanAction (.dict [("tool", .str ""), ("params", .dict [])])],
       .dict [("tool", .str ""), ("params", .dict [])]) ∧
    processStep tool_map 0 (.dict []) (fun r => ([], r)) (.dict [("note", .str "x")]) =
      ([.humanAction (.dict [("note", .str "x")])], .dict [("note", .str "x")]) :=
  ⟨(falsy_tool_step_is_human_action tool_map 0 (.dict []) (fun r => ([], r))
      [("tool", .str ""), ("params", .dict [])]).2 (.str "") rfl rfl,
   (falsy_tool_step_is_human_action tool_map 0 (.dict []) (fun r => ([], r))
      [("note", .str "x")]).1 rfl⟩

/-! ### C4: customer_id injection -/

/-- C4: for a ToolInvocation entry whose params mapping lacks a
 customer_id key, when the parent result has a customer_id, the follower
 invokes the named tool with the params extended by that customer_id
 (appended, in CPython dict order); when params already has a
 customer_id key, the params are passed unchanged. The parameters the
 tool receives are exactly inject result p: they appear in the pre-call
 report and the tool f is applied to them. -/
theorem follow_injects_customer_id (env : ToolEnv) (depth : ℕ) (result : JVal)
    (recur : JVal → List Event × JVal) (kvs p : List (String × JVal)) (t c : JVal)
    (ht : dget kvs "tool" = some t) (htr : pyTruthy t = true)
    (hp : dget kvs "params" = some (.dict p))
    (hc : jget result "customer_id" = some c) :
    (hasKey p "customer_id" = false → inject result p = p ++ [("customer_id", c)]) ∧
    (hasKey p "customer_id" = true → inject result p = p) ∧
    (∀ f, envGet env t = some f →
      (processStep env depth result recur (.dict kvs)).1 =
        .calling t (inject result p) (depth + 1) ::
          (match f (inject result p) with
           | .ok resp => .toolResult t resp :: (recur resp).1
           | .error e => [.toolError t e])) := by
  refine ⟨?_, ?_, ?_⟩
  · intro hk
    simp only [inject, hk, hc, Bool.false_eq_true, reduceIte]
  · intro hk
    simp only [inject, hk, reduceIte]
  · intro f hf
    cases hcall : f (inject result p) with
    | ok resp => rw [processStep_eval_ok env depth result recur kvs p t f resp ht htr hp hf hcall]
    | error e => rw [processStep_eval_err env depth result recur kvs p t f e ht htr hp hf hcall]

/-- Witness for C4: a step naming get_risk_score with empty params,
 under a parent with customer_id "C1", is invoked with
 params = [(customer_id, "C1")]. -/
theorem follow_injects_customer_id_witness :
    inject (.dict [("customer_id", .str "C1")]) [] = [("customer_id", .str "C1")] :=
  (follow_injects_customer_id tool_map 0 (.dict [("customer_id", .str "C1")])
    (fun r => ([], r)) [("tool", .str "get_risk_score"), ("params", .dict [])] []
    (.str "get_risk_score") (.str "C1") rfl rfl rfl rfl).1 rfl

/-! ### C7: unknown tool names are reported, not fatal -/

/-- C7: for a ToolInvocation entry whose tool name is not a registry
 key, the follower reports an unknown-tool condition and nothing else
 for that entry (no pre-call report, no tool result, no recursion), and
 at the chain level the next sibling entry is still processed: the event
 sequence is total, so nothing is raised and the chain is not aborted. -/
theorem follow_unknown_tool_skips (env : ToolEnv) (kvs : List (String × JVal)) (t : JVal)
    (ht : dget kvs "tool" = some t) (htr : pyTruthy t = true)
    (hu : envGet env t = none) :
    (∀ depth result recur,
      (processStep env depth result recur (.dict kvs)).1 = [.unknownTool t]) ∧
    (∀ maxd (r s2 : JVal), 0 < maxd → getSteps r = [.dict kvs, s2] →
      (follow_next_steps env r maxd 0).1 =
        .unknownTool t ::
          (processStep env 0 r (fun resp => follow_next_steps env resp maxd 1) s2).1) := by
  constructor
  · intro depth result recur
    exact processStep_eval_unknown env depth result recur kvs t ht htr hu
  · intro maxd r s2 hmaxd hsteps
    rw [follow_unfold env r maxd 0 hmaxd, hsteps]
    simp only [List.isEmpty_cons, Bool.false_eq_true, reduceIte, List.map_cons,
      List.map_nil, List.flatten_cons, List.flatten_nil, List.append_nil]
    rw [processStep_eval_unknown env 0 r _ kvs t ht htr hu]
    rfl

/-- Witness for C7: a step naming a tool absent from the client
 registry, followed by a human sibling, yields the unknown-tool report
 and then the sibling report. -/
theorem follow_unknown_tool_skips_witness :
    (follow_next_steps tool_map
        (.dict [("customer_id", .str "C1"),
                ("next_steps", .list [
                  .dict [("tool", .str "no_such_tool"), ("params", .dict [])],
                  .str "Escalate to AML officer"])]) 4 0).1 =
      [.unknownTool (.str "no_such_tool"), .humanAction (.str "Escalate to AML officer")] :=
  (follow_unknown_tool_skips tool_map
      [("tool", .str "no_such_tool"), ("params", .dict [])] (.str "no_such_tool")
      rfl rfl rfl).2 4
    (.dict [("customer_id", .str "C1"),
            ("next_steps", .list [
              .dict [("tool", .str "no_such_tool"), ("params", .dict [])],
              .str "Escalate to AML officer"])])
    (.str "Escalate to AML officer") (by decide) rfl

/-! ### C8: invocation failures are caught and isolated -/

/-- C8: when a resolved tool invocation raises, the follower reports the
 pre-call line and then the failure with the tool name and the error
 detail, performs no recursion for that entry, and at the chain level
 the next sibling entry is still processed; the event sequence is total,
 so the failure never propagates out of follow_next_steps. -/
theorem follow_invocation_failure_isolated (env : ToolEnv) (result : JVal)
    (kvs p : List (String × JVal)) (t : JVal) (f : ToolFun) (e : String)
    (ht : dget kvs "tool" = some t) (htr : pyTruthy t = true)
    (hp : dget kvs "params" = some (.dict p)) (hf : envGet env t = some f)
    (hcall : f (inject result p) = .error e) :
    (∀ depth recur,
      (processStep env depth result recur (.dict kvs)).1 =
        [.calling t (inject result p) (depth + 1), .toolError t e]) ∧
    (∀ maxd (s2 : JVal), 0 < maxd → getSteps result = [.dict kvs, s2] →
      (follow_next_steps env result maxd 0).1 =
        [.calling t (inject result p) 1, .toolError t e] ++
          (processStep env 0 result (fun resp => follow_next_steps env resp maxd 1) s2).1) := by
  constructor
  · intro depth recur
    rw [processStep_eval_err env depth result recur kvs p t f e ht htr hp hf hcall]
  · intro maxd s2 hmaxd hsteps
    rw [follow_unfold env result maxd 0 hmaxd, hsteps]
    simp only [List.isEmpty_cons, Bool.false_eq_true, reduceIte, List.map_cons,
      List.map_nil, List.flatten_cons, List.flatten_nil, List.append_nil]
    rw [processStep_eval_err env 0 result _ kvs p t f e ht htr hp hf hcall]

/-- Witness for C8: a registered failing tool (called with a non-string
 customer_id value, which makes the underlying call raise) is reported
 with its error and the human sibling is still processed. -/
theorem follow_invocation_failure_isolated_witness :
    (follow_next_steps tool_map
        (.dict [("next_steps", .list [
                  .dict [("tool", .str "get_risk_score"),
                         ("params", .dict [("customer_id", .int 7)])],
                  .str "Periodic review in 12 months"])]) 4 0).1 =
      [.calling (.str "get_risk_score") [("customer_id", .int 7)] 1,
       .toolError (.str "get_risk_score") "TypeError: invalid arguments",
       .humanAction (.str "Periodic review in 12 months")] :=
  (follow_invocation_failure_isolated tool_map
      (.dict [("next_steps", .list [
                .dict [("tool", .str "get_risk_score"),
                       ("params", .dict [("customer_id", .int 7)])],
                .str "Periodic review in 12 months"])])
      [("tool", .str "get_risk_score"), ("params", .dict [("customer_id", .int 7)])]
      [("customer_id", .int 7)] (.str "get_risk_score") (asTool get_risk_score)
      "TypeError: invalid arguments" rfl rfl rfl rfl rfl).2 4
    (.str "Periodic review in 12 months") (by decide) rfl

/-! ### C5: sibling order and depth-first recursion -/

/-- C5: the follower processes next_steps entries strictly in their
 original order and completes the whole recursive sub-chain of a tool
 invocation before the next sibling: for
 next_steps = [human, toolA, human2, toolB] the report sequence is the
 human report, the toolA pre-call and result reports, all of the toolA
 recursion, the second human report, the toolB pre-call and result
 reports, then all of the toolB recursion. -/
theorem follow_preserves_order (env : ToolEnv) (maxd : ℕ) (r ra rb : JVal)
    (hs1 hs2 : String) (kvsA kvsB pa pb : List (String × JVal)) (ta tb : JVal)
    (fa fb : ToolFun)
    (hmaxd : 0 < maxd)
    (hsteps : getSteps r = [.str hs1, .dict kvsA, .str hs2, .dict kvsB])
    (hta : dget kvsA "tool" = some ta) (htra : pyTruthy ta = true)
    (hpa : dget kvsA "params" = some (.dict pa))
    (hfa : envGet env ta = some fa) (hca : fa (inject r pa) = .ok ra)
    (htb : dget kvsB "tool" = some tb) (htrb : pyTruthy tb = true)
    (hpb : dget kvsB "params" = some (.dict pb))
    (hfb : envGet env tb = some fb) (hcb : fb (inject r pb) = .ok rb) :
    (follow_next_steps env r maxd 0).1 =
      [.humanAction (.str hs1),
       .calling ta (inject r pa) 1, .toolResult ta ra]
      ++ (follow_next_steps env ra maxd 1).1
      ++ [.humanAction (.str hs2),
          .calling tb (inject r pb) 1, .toolResult tb rb]
      ++ (follow_next_steps env rb maxd 1).1 := by
  rw [follow_unfold env r maxd 0 hmaxd, hsteps]
  simp only [List.isEmpty_cons, Bool.false_eq_true, reduceIte, List.map_cons,
    List.map_nil, List.flatten_cons, List.flatten_nil, List.append_nil]
  rw [processStep_eval_ok env 0 r _ kvsA pa ta fa ra hta htra hpa hfa hca,
    processStep_eval_ok env 0 r _ kvsB pb tb fb rb htb htrb hpb hfb hcb]
  simp only [processStep_human_str]
  simp

/-- Witness for C5 with the real registry: a parent holding a human
 action, an explain_risk invocation, a second human action and a
 generate_compliance_report invocation. -/
theorem follow_preserves_order_witness :
    (follow_next_steps tool_map
        (.dict [("customer_id", .str "C1"),
                ("next_steps", .list [
                  .str "Standard monitoring",
                  .dict [("tool", .str "explain_risk"), ("params", .dict [])],
                  .str "Periodic review in 12 months",
                  .dict [("tool", .str "generate_compliance_report"), ("params", .dict [])]])])
        4 0).1 =
      [.humanAction (.str "Standard monitoring"),
       .calling (.str "explain_risk")
         (inject (.dict [("customer_id", .str "C1"),
                ("next_steps", .list [
                  .str "Standard monitoring",
                  .dict [("tool", .str "explain_risk"), ("params", .dict [])],
                  .str "Periodic review in 12 months",
                  .dict [("tool", .str "generate_compliance_report"), ("params", .dict [])]])]) []) 1,
       .toolResult (.str "explain_risk") (explain_risk "C1")]
      ++ (follow_next_steps tool_map (explain_risk "C1") 4 1).1
      ++ [.humanAction (.str "Periodic review in 12 months"),
          .calling (.str "generate_compliance_report")
            (inject (.dict [("customer_id", .str "C1"),
                ("next_steps", .list [
                  .str "Standard monitoring",
                  .dict [("tool", .str "explain_risk"), ("params", .dict [])],
                  .str "Periodic review in 12 months",
                  .dict [("tool", .str "generate_compliance_report"), ("params", .dict [])]])]) []) 1,
          .toolResult (.str "generate_compliance_report") (generate_compliance_report "C1")]
      ++ (follow_next_steps tool_map (generate_compliance_report "C1") 4 1).1 :=
  follow_preserves_order tool_map 4
    (.dict [("customer_id", .str "C1"),
            ("next_steps", .list [
              .str "Standard monitoring",
              .dict [("tool", .str "explain_risk"), ("params", .dict [])],
              .str "Periodic review in 12 months",
              .dict [("tool", .str "generate_compliance_report"), ("params", .dict [])]])])
    (explain_risk "C1") (generate_compliance_report "C1")
    "Standard monitoring" "Periodic review in 12 months"
    [("tool", .str "explain_risk"), ("params", .dict [])]
    [("tool", .str "generate_compliance_report"), ("params", .dict [])]
    [] [] (.str "explain_risk") (.str "generate_compliance_report")
    (asTool explain_risk) (asTool generate_compliance_report)
    (by decide) rfl rfl rfl rfl rfl rfl rfl rfl rfl rfl rfl

/-! ### C3: depth guard, termination and node bound -/

/-- Every successful response a registry can produce has at most b
 next-step entries. -/
def stepsBound (b : ℕ) (env : ToolEnv) : Prop :=
  ∀ name f p r, envGet env name = some f → f p = .ok r → (getSteps r).length ≤ b

/-- Number of successfully followed tool invocations in a report
 sequence: one per visited response node. -/
def countCalls (evs : List Event) : ℕ :=
  evs.countP (fun e => match e with | .toolResult _ _ => true | _ => false)

theorem countCalls_processStep (env : ToolEnv) (depth : ℕ) (result : JVal)
    (recur : JVal → List Event × JVal) (s : JVal) (m : ℕ)
    (hrec : ∀ name f p resp, envGet env name = some f → f p = .ok resp →
      countCalls (recur resp).1 ≤ m) :
    countCalls (processStep env depth result recur s).1 ≤ 1 + m := by
  unfold processStep
  cases s with
  | dict kvs =>
    cases hdt : dget kvs "tool" with
    | none => simp [countCalls, hdt]
    | some t =>
      cases htr : pyTruthy t with
      | false => simp [countCalls, hdt, htr]
      | true =>
        cases henv : envGet env t with
        | none => simp [countCalls, hdt, htr, henv]
        | some f =>
          cases hcall : f (inject result ((storedParams kvs).getD [])) with
          | error e => simp [countCalls, hdt, htr, henv, hcall]
          | ok resp =>
            have h1 := hrec t f (inject result ((storedParams kvs).getD [])) resp henv hcall
            simp only [countCalls] at h1
            simp [countCalls, hdt, htr, henv, hcall, List.countP_cons]
            omega
  | str s => simp [countCalls]
  | int n => simp [countCalls]
  | bool b => simp [countCalls]
  | list xs => simp [countCalls]

theorem sum_le_length_mul (l : List ℕ) (k : ℕ) (h : ∀ x ∈ l, x ≤ k) :
    l.sum ≤ l.length * k := by
  induction l with
  | nil => simp
  | cons a as ih =>
    simp only [List.sum_cons, List.length_cons]
    have ha := h a (by simp)
    have has := ih (fun x hx => h x (by simp [hx]))
    calc a + as.sum ≤ k + as.length * k := Nat.add_le_add ha has
      _ = (as.length + 1) * k := by ring

theorem countCalls_followF (env : ToolEnv) (b maxd : ℕ) (hb : stepsBound b env) :
    ∀ fuel depth r, (getSteps r).length ≤ b →
      countCalls (followF env maxd fuel depth r).1 ≤ (b + 1) ^ fuel - 1 := by
  intro fuel
  induction fuel with
  | zero => intro depth r _; simp [followF, countCalls]
  | succ fuel ih =>
    intro depth r hr
    unfold followF
    cases hs : (getSteps r).isEmpty with
    | true => simp [countCalls, hs]
    | false =>
      simp only [hs, Bool.false_eq_true, reduceIte, List.map_map]
      have hone : 1 ≤ (b + 1) ^ fuel := Nat.one_le_pow _ _ (by omega)
      have hstep : ∀ s ∈ getSteps r,
          countCalls ((processStep env depth r
            (fun resp => followF env maxd fuel (depth + 1) resp) s).1) ≤ (b + 1) ^ fuel := by
        intro s _
        have := countCalls_processStep env depth r
          (fun resp => followF env maxd fuel (depth + 1) resp) s ((b + 1) ^ fuel - 1)
          (fun name f p resp hn hc => ih (depth + 1) resp (hb name f p resp hn hc))
        omega
      have hflat : countCalls (((getSteps r).map (Prod.fst ∘ processStep env depth r
            (fun resp => followF env maxd fuel (depth + 1) resp))).flatten) =
          (((getSteps r).map (fun s => countCalls ((processStep env depth r
            (fun resp => followF env maxd fuel (depth + 1) resp) s).1))).sum) := by
        simp [countCalls, List.countP_flatten, List.map_map, Function.comp_def]
      have hsum := sum_le_length_mul
        ((getSteps r).map (fun s => countCalls ((processStep env depth r
          (fun resp => followF env maxd fuel (depth + 1) resp) s).1)))
        ((b + 1) ^ fuel)
        (by
          intro x hx
          simp only [List.mem_map] at hx
          obtain ⟨s, hsmem, rfl⟩ := hx
          exact hstep s hsmem)
      rw [List.length_map] at hsum
      have hmul : (b + 1) ^ (fuel + 1) = b * (b + 1) ^ fuel + (b + 1) ^ fuel := by ring
      have hlen : (getSteps r).length * (b + 1) ^ fuel ≤ b * (b + 1) ^ fuel :=
        Nat.mul_le_mul_right _ hr
      simp only [hflat]
      omega

/-- C3: the follower always terminates with bounded work. At every
 recursion level it stops and reports truncation as soon as
 depth is at least max_depth; and for any registry whose responses
 (and whose starting document) have at most b next-step entries,
 including cyclic response graphs in which a tool points back to an
 earlier tool, the number of followed tool invocations (visited
 response nodes) is below (b + 1) ^ (max_depth - depth). The follower
 is a total function, so no input makes it loop forever. -/
theorem follow_next_steps_terminates_bounded (env : ToolEnv) (r : JVal)
    (maxd depth b : ℕ) (hb : stepsBound b env) (hr : (getSteps r).length ≤ b) :
    (maxd ≤ depth → follow_next_steps env r maxd depth = ([.maxDepth depth], r)) ∧
    countCalls (follow_next_steps env r maxd depth).1 ≤ (b + 1) ^ (maxd - depth) - 1 := by
  constructor
  · intro h
    unfold follow_next_steps
    rw [if_pos h]
  · rw [follow_eq_followF]
    exact countCalls_followF env b maxd hb (maxd - depth) depth r hr

theorem steps_len_ops (cid : String) :
    (getSteps (get_customer_profile cid)).length ≤ 5 ∧
    (getSteps (get_risk_score cid)).length ≤ 5 ∧
    (getSteps (explain_risk cid)).length ≤ 5 ∧
    (getSteps (generate_compliance_report cid)).length ≤ 5 := by
  unfold get_customer_profile get_risk_score explain_risk generate_compliance_report
  rcases infer_scenario_cases cid with h | h <;> rw [h] <;> simp only [reduceIte]
  · exact ⟨le_of_eq rfl, le_of_eq rfl,
      Nat.le_succ_of_le (le_of_eq rfl),
      Nat.le_succ_of_le (Nat.le_succ_of_le (le_of_eq rfl))⟩
  · exact ⟨Nat.le_succ_of_le (le_of_eq rfl),
      Nat.le_succ_of_le (Nat.le_succ_of_le (le_of_eq rfl)),
      Nat.le_succ_of_le (Nat.le_succ_of_le (le_of_eq rfl)),
      Nat.le_succ_of_le (Nat.le_succ_of_le (Nat.le_succ_of_le (le_of_eq rfl)))⟩

theorem asTool_ok_bound (g : String → JVal) (hg : ∀ cid, (getSteps (g cid)).length ≤ 5)
    (p : List (String × JVal)) (r : JVal) (hcall : asTool g p = .ok r) :
    (getSteps r).length ≤ 5 := by
  unfold asTool at hcall
  split at hcall
  next k cid =>
    split_ifs at hcall with hk
    injection hcall with hr
    subst hr
    exact hg cid
  next => exact absurd hcall (by simp)

theorem tool_map_stepsBound : stepsBound 5 tool_map := by
  intro name f p r hname hcall
  cases name with
  | str s =>
    by_cases h1 : ("get_customer_profile" == s)
    · have hf : asTool get_customer_profile = f := by
        simpa [envGet, tool_map, List.find?, h1] using hname
      rw [← hf] at hcall
      exact asTool_ok_bound get_customer_profile (fun cid => (steps_len_ops cid).1) p r hcall
    by_cases h2 : ("get_risk_score" == s)
    · have hf : asTool get_risk_score = f := by
        simpa [envGet, tool_map, List.find?, h1, h2] using hname
      rw [← hf] at hcall
      exact asTool_ok_bound get_risk_score (fun cid => (steps_len_ops cid).2.1) p r hcall
    by_cases h3 : ("explain_risk" == s)
    · have hf : asTool explain_risk = f := by
        simpa [envGet, tool_map, List.find?, h1, h2, h3] using hname
      rw [← hf] at hcall
      exact asTool_ok_bound explain_risk (fun cid => (steps_len_ops cid).2.2.1) p r hcall
    by_cases h4 : ("generate_compliance_report" == s)
    · have hf : asTool generate_compliance_report = f := by
        simpa [envGet, tool_map, List.find?, h1, h2, h3, h4] using hname
      rw [← hf] at hcall
      exact asTool_ok_bound generate_compliance_report
        (fun cid => (steps_len_ops cid).2.2.2) p r hcall
    · exact absurd hname (by simp [envGet, tool_map, List.find?, h1, h2, h3, h4])
  | int n => exact absurd hname (by simp [envGet])
  | bool b => exact absurd hname (by simp [envGet])
  | list xs => exact absurd hname (by simp [envGet])
  | dict d => exact absurd hname (by simp [envGet])

/-- Witness for C3 with the real registry, which has branching at most
 5, starting from the profile of a negative customer at max depth 4. -/
theorem follow_next_steps_terminates_bounded_witness :
    countCalls (follow_next_steps tool_map (get_customer_profile "X-NEG") 4 0).1 ≤
      (5 + 1) ^ (4 - 0) - 1 :=
  (follow_next_steps_terminates_bounded tool_map (get_customer_profile "X-NEG") 4 0 5
    tool_map_stepsBound (by decide)).2

/-! ### C6: the injection mutates the caller-visible params dict

Line 104 binds params to the dict object stored inside the step
(step.get with key "params", default a fresh empty dict), and line 107
assigns into that object, so when
the entry carries a params dict the parent result is changed in place:
after follow_next_steps returns, the entry holds
a params dict whose only entry is the parent customer_id. -/

/-- Input on which the injection writes through: a parent with
 customer_id "C1" and one stored empty params dict. -/
def mutationInput : JVal :=
  .dict [("customer_id", .str "C1"),
         ("next_steps", .list [
           .dict [("tool", .str "get_risk_score"), ("params", .dict [])]])]

/-- C6 fails on the code: following mutationInput leaves the caller
 visible params dict of its only entry holding the injected
 customer_id, so the input result is not equal to what it was before
 the call. The spec requires copy-on-write here. -/
theorem follow_mutates_caller_params :
    (follow_next_steps tool_map mutationInput 4 0).2 =
      .dict [("customer_id", .str "C1"),
             ("next_steps", .list [
               .dict [("tool", .str "get_risk_score"),
                      ("params", .dict [("customer_id", .str "C1")])]])] ∧
    (follow_next_steps tool_map mutationInput 4 0).2 ≠ mutationInput := by
  have h : (follow_next_steps tool_map mutationInput 4 0).2 =
      .dict [("customer_id", .str "C1"),
             ("next_steps", .list [
               .dict [("tool", .str "get_risk_score"),
                      ("params", .dict [("customer_id", .str "C1")])]])] := by
    rw [follow_unfold tool_map mutationInput 4 0 (by omega)]
    rw [show getSteps mutationInput =
      [.dict [("tool", .str "get_risk_score"), ("params", .dict [])]] from rfl]
    simp only [List.isEmpty_cons, Bool.false_eq_true, reduceIte, List.map_cons, List.map_nil]
    rw [processStep_eval_ok tool_map 0 mutationInput _
      [("tool", .str "get_risk_score"), ("params", .dict [])] []
      (.str "get_risk_score") (asTool get_risk_score) (get_risk_score "C1")
      rfl rfl rfl rfl rfl]
    rfl
  refine ⟨h, ?_⟩
  rw [h]
  intro heq
  simp [mutationInput] at heq
